import Mathlib

/-!
Shallow embedding of the `is_trait` crate (src/src/lib.rs).

The crate exports two macros, `is_trait!` and `const_is_trait!`.  Each
expansion declares, inside its own block:

* a local trait `A` with a single method `fn is(&self) -> bool` (lines 32-34);
* a zero-content carrier `struct B<T: ?Sized>(core::marker::PhantomData<T>)`
  (line 36);
* `impl<T: ?Sized> core::ops::Deref for B<T>` with `Target = ()` (lines 38-43);
* `impl<T: ?Sized> A for B<T> where T: $trait`, whose `is` returns `true`
  (lines 45-52);
* `impl A for ()`, whose `is` returns `false` (lines 54-58);

and then evaluates `B::<$type>(PhantomData).is()` (line 60).  Rust method
resolution tries the literal receiver type `B<T>` first and, when no
applicable impl of `A` exists there (that is, when the bound `T: $trait`
does not hold), follows the `Deref` chain to `()` and uses the impl there.

The embedding keeps the compile-time trait environment abstract: the set of
trait implementations declared by the enclosing program is a relation
`impls : Ty → Tr → Bool` over abstract universes `Ty` of type references and
`Tr` of trait references.  Method resolution is modelled explicitly as a
search along the deref chain for the first receiver type carrying an
applicable impl of `A`; the value of the probe is the body of the `is`
method of the impl so selected.
-/

namespace IsTrait

/-- Receiver types that occur in one expansion of `is_trait!`: the carrier
type `B<T>` (line 36) and the unit type `()`, the `Deref` target (line 39). -/
inductive SelfTy (Ty : Type) where
  | carrier (T : Ty)
  | unit
  deriving DecidableEq

/-- The carrier `struct B<T: ?Sized>(core::marker::PhantomData<T>)` from
line 36: a value of it stores only the `PhantomData` marker (embedded as
`Unit`), never a value of the candidate type `T`. -/
structure B {Ty : Type} (T : Ty) : Type where
  phantom : Unit

variable {Ty Tr : Type}

/-- Whether declaring the carrier imposes a `Sized` bound on its parameter.
The source writes `struct B<T: ?Sized>` (line 36) and repeats `T: ?Sized` on
both impls that mention `B<T>` (lines 38 and 45), so no such bound exists. -/
def carrierRequiresSized : Bool := false

/-- Whether a candidate type `T` may instantiate the carrier and its impls,
given which types of the universe are statically sized: a `Sized` bound is
checked only when one is declared. -/
def carrierAccepts (sized : Ty → Bool) (T : Ty) : Bool :=
  if carrierRequiresSized then sized T else true

/-- One step of autoderef: `impl<T: ?Sized> Deref for B<T>` has
`Target = ()` (lines 38-43), and `()` has no `Deref` impl in scope. -/
def derefStep : SelfTy Ty → Option (SelfTy Ty)
  | .carrier _ => some .unit
  | .unit => none

/-- The chain of receiver types tried by method resolution, starting from
the literal receiver type and following `derefStep` until it yields none. -/
def derefChain : SelfTy Ty → List (SelfTy Ty)
  | .carrier T => [.carrier T, .unit]
  | .unit => [.unit]

/-- Whether an impl of the local trait `A` applies at a receiver type: the
conditional `impl<T: ?Sized> A for B<T> where T: $trait` (lines 45-48)
applies to `B<T>` exactly when `T` implements the probed trait `I`, and
`impl A for ()` (line 54) always applies to `()`. -/
def appliesA (impls : Ty → Tr → Bool) (I : Tr) : SelfTy Ty → Bool
  | .carrier T => impls T I
  | .unit => true

/-- The body of `fn is(&self)` in the impl present at a receiver type:
`true` in the conditional impl for `B<T>` (line 50) and `false` in the
impl for `()` (line 56). -/
def isBody : SelfTy Ty → Bool
  | .carrier _ => true
  | .unit => false

/-- Method resolution for the call `.is()`: the first receiver type along
the deref chain that carries an applicable impl of `A`. -/
def resolveIs (impls : Ty → Tr → Bool) (I : Tr) (s : SelfTy Ty) : Option (SelfTy Ty) :=
  (derefChain s).find? (appliesA impls I)

/-- Calling `.is()` on a value of type `B<T>`: resolve the method starting
from the receiver type `B<T>` and evaluate the body of the impl selected.
A `none` result would mean resolution failed, which in Rust is a
compile-time diagnostic, never a runtime value. -/
def callIs (impls : Ty → Tr → Bool) (I : Tr) {T : Ty} (_b : B T) : Option Bool :=
  (resolveIs impls I (SelfTy.carrier T)).map isBody

/-- The expression produced by `is_trait!($type, $trait)` (line 60):
construct `B::<$type>(PhantomData)` and call `.is()` on it. -/
def is_trait (impls : Ty → Tr → Bool) (T : Ty) (I : Tr) : Option Bool :=
  callIs impls I (B.mk () : B T)

/-! The `const_is_trait!` macro (lines 66-98) repeats the same expansion
with `const` impls: the declarations differ from those of `is_trait!` only
by the `const` qualifier on the three impls (lines 74, 81, 90), which makes
them usable during compile-time constant evaluation but leaves every body
unchanged.  The const variant is embedded by its own copies of the
definitions above, mirroring the duplicated source. -/

/-- Autoderef step of the const expansion: `impl<T: ?Sized> const Deref for
B<T>` with `Target = ()` (lines 74-79). -/
def constDerefStep : SelfTy Ty → Option (SelfTy Ty)
  | .carrier _ => some .unit
  | .unit => none

/-- Receiver chain tried by method resolution in the const expansion. -/
def constDerefChain : SelfTy Ty → List (SelfTy Ty)
  | .carrier T => [.carrier T, .unit]
  | .unit => [.unit]

/-- Applicability of the const impls of `A`: `impl<T: ?Sized> const A for
B<T> where T: $trait` (lines 81-84) and `impl const A for ()` (line 90). -/
def constAppliesA (impls : Ty → Tr → Bool) (I : Tr) : SelfTy Ty → Bool
  | .carrier T => impls T I
  | .unit => true

/-- Body of `fn is(&self)` in the const impls: `true` for `B<T>` (line 86)
and `false` for `()` (line 92). -/
def constIsBody : SelfTy Ty → Bool
  | .carrier _ => true
  | .unit => false

/-- Method resolution for `.is()` in the const expansion. -/
def constResolveIs (impls : Ty → Tr → Bool) (I : Tr) (s : SelfTy Ty) : Option (SelfTy Ty) :=
  (constDerefChain s).find? (constAppliesA impls I)

/-- The expression produced by `const_is_trait!($type, $trait)` (line 96):
construct `B::<$type>(PhantomData)` and call `.is()` on it, resolving
against the const impls. -/
def const_is_trait (impls : Ty → Tr → Bool) (T : Ty) (I : Tr) : Option Bool :=
  (constResolveIs impls I (SelfTy.carrier T)).map constIsBody

/-- Evaluation of `is_trait!` on the branch where `T` implements `I`:
resolution selects the carrier impl directly. -/
theorem resolveIs_carrier (impls : Ty → Tr → Bool) (I : Tr) (T : Ty)
    (h : impls T I = true) :
    resolveIs impls I (SelfTy.carrier T) = some (SelfTy.carrier T) := by
  simp [resolveIs, derefChain, List.find?, appliesA, h]

/-- Evaluation of `is_trait!` on the branch where `T` does not implement
`I`: resolution falls through to the unit impl. -/
theorem resolveIs_unit (impls : Ty → Tr → Bool) (I : Tr) (T : Ty)
    (h : impls T I = false) :
    resolveIs impls I (SelfTy.carrier T) = some SelfTy.unit := by
  simp [resolveIs, derefChain, List.find?, appliesA, h]

/-- Functional characterisation of `is_trait!`: the expansion always
evaluates, and its value is exactly the fact `impls T I`. -/
theorem is_trait_spec (impls : Ty → Tr → Bool) (T : Ty) (I : Tr) :
    is_trait impls T I = some (impls T I) := by
  cases h : impls T I with
  | true =>
      simp [is_trait, callIs, resolveIs_carrier impls I T h, isBody]
  | false =>
      simp [is_trait, callIs, resolveIs_unit impls I T h, isBody]

/-- Functional characterisation of `const_is_trait!`, identical in value to
the non-const expansion. -/
theorem const_is_trait_spec (impls : Ty → Tr → Bool) (T : Ty) (I : Tr) :
    const_is_trait impls T I = some (impls T I) := by
  cases h : impls T I with
  | true =>
      simp [const_is_trait, constResolveIs, constDerefChain, List.find?,
        constAppliesA, h, constIsBody]
  | false =>
      simp [const_is_trait, constResolveIs, constDerefChain, List.find?,
        constAppliesA, h, constIsBody]

/-- A compile-time usage of the const probe as an array length, as in
`[0u8; N]`: length 1 when the probe yields `true`, length 0 otherwise. -/
def constProbeLen (impls : Ty → Tr → Bool) (T : Ty) (I : Tr) : Nat :=
  if const_is_trait impls T I = some true then 1 else 0

/-- A sequence of `is_trait!` invocations evaluated in program order: each
expansion is a closed expression, so the sequence is the pointwise map of
`is_trait` over the list of queries. -/
def evalAll (impls : Ty → Tr → Bool) (qs : List (Ty × Tr)) : List (Option Bool) :=
  qs.map (fun q => is_trait impls q.1 q.2)

/-- Names declared inside one expansion's block: the local trait `A`
(line 32) and the carrier struct `B` (line 36). -/
def expansionDecls : List String := ["A", "B"]

/-- An invocation of `is_trait!` as seen from the enclosing scope: the
expansion is a block `{ ... }`, so its declarations extend the name scope
only inside the block, which is discarded when the block finishes.  The
invocation returns the enclosing scope's visible names unchanged together
with the block's value, and the value is computed from the inner scope's
expansion, depending only on the program's impls and on `(T, I)`. -/
def invokeInScope (impls : Ty → Tr → Bool) (outer : List String)
    (T : Ty) (I : Tr) : List String × Option Bool :=
  let _inner : List String := outer ++ expansionDecls
  (outer, is_trait impls T I)

/-! Concrete universe used to instantiate the abstract theorems, following
the scenarios of the spec: a trait `Greeter` implemented by `Dog` but not
by `Cat`; a parameterised trait with the two distinct instantiations
`Bound<f64>` and `Bound<i32>`, of which `Box3D` implements only the first;
an unsized type `str` implementing `Display`; and an uninhabited type. -/

/-- Example type references. -/
inductive ExTy where
  | Dog
  | Cat
  | Box3D
  | StrSlice
  | NeverTy
  deriving DecidableEq

/-- Example trait references; `BoundF64` and `BoundI32` are the two
distinct trait references `Bound<f64>` and `Bound<i32>`. -/
inductive ExTr where
  | Greeter
  | BoundF64
  | BoundI32
  | Display
  deriving DecidableEq

/-- Example implementation relation: the trait impls declared by the
example program. -/
def implsEx : ExTy → ExTr → Bool
  | .Dog, .Greeter => true
  | .Box3D, .BoundF64 => true
  | .StrSlice, .Display => true
  | _, _ => false

/-- Which example types are statically sized: the slice type is not. -/
def sizedEx : ExTy → Bool
  | .StrSlice => false
  | _ => true

/-- Runtime values of the example types: the unit-like nominal types have a
single value and `NeverTy` is uninhabited. -/
def ExValue : ExTy → Type
  | .NeverTy => Empty
  | _ => Unit

/-- C1.  Soundness: for every type `T` and trait `I` such that `T` is
declared to implement `I`, the expression produced by `is_trait!(T, I)`
evaluates to `true`, and method resolution selects the conditional impl on
the carrier `B<T>` directly, without using the deref fallback. -/
theorem is_trait_sound (impls : Ty → Tr → Bool) (T : Ty) (I : Tr)
    (h : impls T I = true) :
    resolveIs impls I (SelfTy.carrier T) = some (SelfTy.carrier T) ∧
    is_trait impls T I = some true :=
  ⟨resolveIs_carrier impls I T h, by rw [is_trait_spec, h]⟩

/-- Witness for C1: `Dog` implements `Greeter`, and the probe answers
`true` through the carrier impl. -/
theorem is_trait_sound_witness :
    implsEx ExTy.Dog ExTr.Greeter = true ∧
    (resolveIs implsEx ExTr.Greeter (SelfTy.carrier ExTy.Dog) =
        some (SelfTy.carrier ExTy.Dog) ∧
      is_trait implsEx ExTy.Dog ExTr.Greeter = some true) :=
  ⟨by decide, is_trait_sound implsEx ExTy.Dog ExTr.Greeter (by decide)⟩

/-- C2.  Completeness (negative): for every type `T` and trait `I` such
that no implementation of `I` for `T` exists, the expression produced by
`is_trait!(T, I)` evaluates to `false`, and method resolution falls
through the `Deref` coercion from `B<T>` to `()`, whose impl answers
`false`. -/
theorem is_trait_neg (impls : Ty → Tr → Bool) (T : Ty) (I : Tr)
    (h : impls T I = false) :
    resolveIs impls I (SelfTy.carrier T) = some SelfTy.unit ∧
    is_trait impls T I = some false :=
  ⟨resolveIs_unit impls I T h, by rw [is_trait_spec, h]⟩

/-- Witness for C2: `Cat` does not implement `Greeter`, and the probe
answers `false` through the unit fallback. -/
theorem is_trait_neg_witness :
    implsEx ExTy.Cat ExTr.Greeter = false ∧
    (resolveIs implsEx ExTr.Greeter (SelfTy.carrier ExTy.Cat) =
        some SelfTy.unit ∧
      is_trait implsEx ExTy.Cat ExTr.Greeter = some false) :=
  ⟨by decide, is_trait_neg implsEx ExTy.Cat ExTr.Greeter (by decide)⟩

/-- C3.  Const/runtime equivalence: for every pair `(T, I)`, the
expressions produced by `is_trait!(T, I)` and `const_is_trait!(T, I)`
evaluate to the same boolean value. -/
theorem const_is_trait_eq_is_trait (impls : Ty → Tr → Bool) (T : Ty) (I : Tr) :
    const_is_trait impls T I = is_trait impls T I := by
  rw [is_trait_spec, const_is_trait_spec]

/-- C4.  Const usability: the value of `const_is_trait!(T, I)` is usable
as the length of a fixed-size array, and when `T` implements `I` that
length is the one corresponding to `true`, namely 1, so the array built
with it has length 1. -/
theorem const_is_trait_usable (impls : Ty → Tr → Bool) (T : Ty) (I : Tr)
    (h : impls T I = true) :
    constProbeLen impls T I = 1 ∧
    (List.replicate (constProbeLen impls T I) (0 : Nat)).length = 1 := by
  have hc : const_is_trait impls T I = some true := by
    rw [const_is_trait_spec, h]
  constructor
  · simp [constProbeLen, hc]
  · simp [constProbeLen, hc]

/-- Witness for C4: `Dog` implements `Greeter`, so the const probe sizes a
length-1 array. -/
theorem const_is_trait_usable_witness :
    implsEx ExTy.Dog ExTr.Greeter = true ∧
    (constProbeLen implsEx ExTy.Dog ExTr.Greeter = 1 ∧
      (List.replicate (constProbeLen implsEx ExTy.Dog ExTr.Greeter)
          (0 : Nat)).length = 1) :=
  ⟨by decide, const_is_trait_usable implsEx ExTy.Dog ExTr.Greeter (by decide)⟩

/-- C5.  Determinism: in any two sequences of invocations, occurrences of
the same query `(T, I)` evaluate to the same boolean, regardless of
position, of invocation order and of the surrounding invocations. -/
theorem is_trait_deterministic (impls : Ty → Tr → Bool)
    (qs1 qs2 : List (Ty × Tr)) (i j : Nat) (q : Ty × Tr)
    (h1 : qs1[i]? = some q) (h2 : qs2[j]? = some q) :
    (evalAll impls qs1)[i]? = (evalAll impls qs2)[j]? := by
  simp [evalAll, List.getElem?_map, h1, h2]

/-- Witness for C5: the query `(Dog, Greeter)` evaluates identically at
position 0 of one invocation sequence and position 1 of another. -/
theorem is_trait_deterministic_witness :
    ([(ExTy.Dog, ExTr.Greeter), (ExTy.Cat, ExTr.Greeter)] :
        List (ExTy × ExTr))[0]? = some (ExTy.Dog, ExTr.Greeter) ∧
    ([(ExTy.Cat, ExTr.BoundF64), (ExTy.Dog, ExTr.Greeter)] :
        List (ExTy × ExTr))[1]? = some (ExTy.Dog, ExTr.Greeter) ∧
    (evalAll implsEx [(ExTy.Dog, ExTr.Greeter), (ExTy.Cat, ExTr.Greeter)])[0]? =
      (evalAll implsEx [(ExTy.Cat, ExTr.BoundF64), (ExTy.Dog, ExTr.Greeter)])[1]? :=
  ⟨by decide, by decide,
    is_trait_deterministic implsEx
      [(ExTy.Dog, ExTr.Greeter), (ExTy.Cat, ExTr.Greeter)]
      [(ExTy.Cat, ExTr.BoundF64), (ExTy.Dog, ExTr.Greeter)]
      0 1 (ExTy.Dog, ExTr.Greeter) (by decide) (by decide)⟩

/-- C6.  Unsized support: for a dynamically-sized candidate type `T`, the
invocation is legal (the carrier's declarations impose no `Sized` bound)
and the probe answers `true` exactly when `T` implements `I`. -/
theorem is_trait_unsized (sized : Ty → Bool) (impls : Ty → Tr → Bool)
    (T : Ty) (I : Tr) (h : sized T = false) :
    carrierAccepts sized T = true ∧
    (is_trait impls T I = some true ↔ impls T I = true) := by
  refine ⟨rfl, ?_⟩
  rw [is_trait_spec]
  exact ⟨fun hs => Option.some.inj hs, fun hs => by rw [hs]⟩

/-- Witness for C6: the unsized type `str` implements `Display`, and the
probe is legal on it and answers accordingly. -/
theorem is_trait_unsized_witness :
    sizedEx ExTy.StrSlice = false ∧
    (carrierAccepts sizedEx ExTy.StrSlice = true ∧
      (is_trait implsEx ExTy.StrSlice ExTr.Display = some true ↔
        implsEx ExTy.StrSlice ExTr.Display = true)) :=
  ⟨by decide, is_trait_unsized sizedEx implsEx ExTy.StrSlice ExTr.Display (by decide)⟩

/-- C7.  Exact bound encoding: the conditional impl's where-clause checks
exactly the trait reference the caller passed, with no normalisation; in
particular `Box3D` probes `true` against `Bound<f64>` and `false` against
the distinct reference `Bound<i32>`. -/
theorem is_trait_exact_bound :
    (∀ (Ty Tr : Type) (impls : Ty → Tr → Bool) (I : Tr) (T : Ty),
        appliesA impls I (SelfTy.carrier T) = impls T I) ∧
    is_trait implsEx ExTy.Box3D ExTr.BoundF64 = some true ∧
    is_trait implsEx ExTy.Box3D ExTr.BoundI32 = some false := by
  refine ⟨fun Ty Tr impls I T => rfl, by decide, by decide⟩

/-- C8.  Isolation: an invocation returns the enclosing scope's visible
names unchanged, a second invocation run after a first one in the same
scope yields exactly its standalone value, and an invocation's value does
not depend on the enclosing scope at all. -/
theorem is_trait_isolated (impls : Ty → Tr → Bool) (sc sc2 : List String)
    (T1 : Ty) (I1 : Tr) (T2 : Ty) (I2 : Tr) :
    (invokeInScope impls sc T1 I1).1 = sc ∧
    (invokeInScope impls ((invokeInScope impls sc T1 I1).1) T2 I2).2 =
      is_trait impls T2 I2 ∧
    (invokeInScope impls sc T1 I1).2 = (invokeInScope impls sc2 T1 I1).2 :=
  ⟨rfl, rfl, rfl⟩

/-- C9.  No runtime-surfaced error: evaluating `is_trait!(T, I)` has
exactly two possible outcomes, `true` or `false`; resolution never fails
to produce a boolean, for any type, trait and implementation relation. -/
theorem is_trait_total (impls : Ty → Tr → Bool) (T : Ty) (I : Tr) :
    is_trait impls T I = some true ∨ is_trait impls T I = some false := by
  cases h : impls T I with
  | true => exact Or.inl (by rw [is_trait_spec, h])
  | false => exact Or.inr (by rw [is_trait_spec, h])

/-- C10.  No candidate value is ever constructed: the carrier `B<T>` is
inhabited by its `PhantomData` marker alone for every candidate type, so
the probe works even for the uninhabited type `NeverTy`, answering `false`
for every trait it does not implement. -/
theorem is_trait_no_candidate_value :
    (∀ (Ty : Type) (T : Ty), Nonempty (B T)) ∧
    IsEmpty (ExValue ExTy.NeverTy) ∧
    (∀ I : ExTr, is_trait implsEx ExTy.NeverTy I = some false) := by
  refine ⟨fun Ty T => ⟨⟨()⟩⟩, ⟨fun x => x.elim⟩, fun I => ?_⟩
  cases I <;> decide

end IsTrait
